import Mathlib

/-!
Verification of the scoped database-access components of the repository
(`python-context-async-perations-0x02`, `python-generators-0x00`) against
their specification.

The two class-based context managers (`DatabaseConnection` in
`0-databaseconnection.py` and `ExecuteQuery` in `1-execute.py`) are embedded
as functions producing the trace of lifecycle events a session performs,
together with the fault (if any) that propagates to the caller.  The
environment (`Env`) records which of the external sqlite operations succeed
and whether the caller-supplied scope body raises; the embedding transcribes
the Python control flow, including the `with`-statement protocol (if
`__enter__` raises, `__exit__` is never invoked).
-/

/-- Primitive values bound to statement placeholders and stored in rows. -/
inductive Value where
  | int (n : Int)
  | text (s : String)
  | null
deriving DecidableEq, Repr

/-- A database row: an ordered sequence of primitive values. -/
def Row := List Value
deriving DecidableEq, Repr

/-- Observable lifecycle events of one session, in the order the code
performs them. `connect` is the successful creation of the connection
handle (`sqlite3.connect` plus cursor creation), `execQuery` the invocation
of `cursor.execute` inside `ExecuteQuery.__enter__`, `bodyRun` the entry
into the caller-supplied scope body, and the remaining events the calls
made by `__exit__`. -/
inductive Event where
  | connect
  | execQuery
  | bodyRun
  | closeCursor
  | commit
  | rollback
  | closeConn
deriving DecidableEq, Repr

/-- Faults that can propagate out of a session.  `bodyErr kind msg` is a
fault raised by the caller-supplied scope body, carrying its kind and
message; the other constructors are the lifecycle faults of the spec's
error taxonomy. -/
inductive Fault where
  | connErr
  | queryErr
  | commitErr
  | rollbackErr
  | bodyErr (kind : String) (msg : String)
deriving DecidableEq, Repr

/-- The environment of one session: which external operations succeed and
whether the scope body raises (and with what kind and message). -/
structure Env where
  connectOk : Bool
  queryOk : Bool
  bodyFault : Option (String × String)
  commitOk : Bool
  rollbackOk : Bool
deriving DecidableEq, Repr

/-- Number of occurrences of event `e` in trace `l`. -/
def countEv (e : Event) (l : List Event) : Nat :=
  (l.filter (fun x => x = e)).length

/-- Shallow embedding of `DatabaseConnection.__exit__`
(0-databaseconnection.py lines 38-65) and of the textually identical
`ExecuteQuery.__exit__` (1-execute.py lines 65-92).

The Python body is: `if self.cursor: self.cursor.close()`; then
`if self.connection:` — if no exception, `self.connection.commit()`,
otherwise `self.connection.rollback()`; then `self.connection.close()`;
finally `return False` (never suppress the body's exception).

There is no try/finally around the commit/rollback call: if it raises,
`self.connection.close()` is never reached and the commit/rollback fault
propagates out of `__exit__` (replacing the scope body's fault, if any).
`exc` is the fault propagating out of the scope body (`None` in Python when
the body completed normally); the result is the trace of events `__exit__`
performs and the fault that propagates to the caller afterwards. -/
def exitStep (hasCursor hasConn : Bool) (exc : Option Fault)
    (commitOk rollbackOk : Bool) : List Event × Option Fault :=
  let cev := if hasCursor then [Event.closeCursor] else []
  if hasConn then
    match exc with
    | none =>
      if commitOk then
        (cev ++ [Event.commit, Event.closeConn], none)
      else
        (cev ++ [Event.commit], some Fault.commitErr)
    | some f =>
      if rollbackOk then
        (cev ++ [Event.rollback, Event.closeConn], some f)
      else
        (cev ++ [Event.rollback], some Fault.rollbackErr)
  else
    (cev, exc)

/-- Fault raised by the scope body in environment `env`, if any. -/
def Env.bodyErr (env : Env) : Option Fault :=
  env.bodyFault.map fun p => Fault.bodyErr p.1 p.2

/-- Shallow embedding of one full `with DatabaseConnection(path) as cursor:`
session (0-databaseconnection.py).  `__enter__` (lines 21-36) opens the
connection and creates the cursor; a `sqlite3.Error` there is printed and
re-raised, and by the `with` protocol `__exit__` never runs in that case.
On successful entry the scope body runs, and `__exit__` runs with the
body's exception information.  The result is the session's event trace and
the fault propagating to the caller. -/
def DatabaseConnection.run (env : Env) : List Event × Option Fault :=
  if env.connectOk then
    let er := exitStep true true env.bodyErr env.commitOk env.rollbackOk
    (Event.connect :: Event.bodyRun :: er.1, er.2)
  else
    ([], some Fault.connErr)

/-- Outcome of executing one statement against the store: the rows it
produces (for reads) and the affected-row count (for writes). -/
structure ExecOutcome where
  produced : List Row
  affected : Nat
deriving DecidableEq, Repr

/-- The value `ExecuteQuery.__enter__` returns to the scope body: either
the eagerly materialized row list (`fetchall`) or the affected-row count
(`rowcount`). -/
inductive QueryResult where
  | rows (rs : List Row)
  | count (n : Nat)
deriving DecidableEq, Repr

/-- Embedding of `self.parameters = parameters or ()` in
`ExecuteQuery.__init__` (1-execute.py line 21): a falsy `parameters`
(omitted / `None` / an empty sequence) is normalized to the empty tuple. -/
def pyOrEmpty (parameters : Option (List Value)) : List Value :=
  match parameters with
  | none => []
  | some vs => if vs.isEmpty then [] else vs

/-- Embedding of the binding branch in `ExecuteQuery.__enter__`
(1-execute.py lines 41-45): `if self.parameters:` executes the statement
with the parameters bound, otherwise without any parameter binding
(`none`). -/
def bindCall (params : List Value) : Option (List Value) :=
  if params.isEmpty then none else some params

/-- Python `str.strip()` with no argument: remove leading and trailing
whitespace characters. -/
def pyStrip (s : List Char) : List Char :=
  ((s.dropWhile Char.isWhitespace).reverse.dropWhile Char.isWhitespace).reverse

/-- Python `str.upper()`, character by character (the statements of this
repository are ASCII). -/
def pyUpper (s : List Char) : List Char :=
  s.map Char.toUpper

/-- Python `str.startswith(pre)` on character lists. -/
def pyStartsWith : List Char → List Char → Bool
  | _, [] => true
  | [], _ :: _ => false
  | c :: cs, d :: ds => c == d && pyStartsWith cs ds

/-- Embedding of the verb test `self.query.strip().upper().startswith('SELECT')`
(1-execute.py line 48), over the statement's character sequence. -/
def isSelectQuery (query : String) : Bool :=
  pyStartsWith (pyUpper (pyStrip query.data)) "SELECT".data

/-- Embedding of the result branch in `ExecuteQuery.__enter__`
(1-execute.py lines 47-54): for `SELECT`-class statements the result is
`cursor.fetchall()` — the full produced row set, materialized eagerly as a
list; otherwise it is `cursor.rowcount`, the affected-row count. -/
def fetchResults (query : String) (out : ExecOutcome) : QueryResult :=
  if isSelectQuery query then QueryResult.rows out.produced
  else QueryResult.count out.affected

/-- Result of one full `ExecuteQuery` session: the event trace, the fault
propagating to the caller, and the value `__enter__` yielded to the scope
body (`none` when `__enter__` itself raised). -/
structure RunResult where
  events : List Event
  fault : Option Fault
  yielded : Option QueryResult
deriving DecidableEq, Repr

/-- Shallow embedding of one full
`with ExecuteQuery(path, query, parameters) as results:` session
(1-execute.py).  `__enter__` (lines 26-63) opens the connection, creates
the cursor, then executes the statement (with or without binding per
`bindCall`) and computes the results per `fetchResults`.  A `sqlite3.Error`
during connection or execution is printed and re-raised; by the `with`
protocol `__exit__` never runs in that case — in particular, when the
statement execution fails the already-created connection handle is never
closed.  `sem` gives the store's outcome for the executed statement. -/
def ExecuteQuery.run (env : Env) (query : String)
    (parameters : Option (List Value))
    (sem : String → Option (List Value) → ExecOutcome) : RunResult :=
  let params := pyOrEmpty parameters
  if env.connectOk then
    if env.queryOk then
      let out := sem query (bindCall params)
      let results := fetchResults query out
      let er := exitStep true true env.bodyErr env.commitOk env.rollbackOk
      { events := Event.connect :: Event.execQuery :: Event.bodyRun :: er.1
        fault := er.2
        yielded := some results }
    else
      { events := [Event.connect, Event.execQuery]
        fault := some Fault.queryErr
        yielded := none }
  else
    { events := [], fault := some Fault.connErr, yielded := none }

/-- A store semantics that produces no rows and affects no rows; used to
instantiate sessions whose statement outcome is irrelevant. -/
def trivialSem : String → Option (List Value) → ExecOutcome :=
  fun _ _ => { produced := [], affected := 0 }

/-- A user record of the sample `users` table
(`id`, `name`, `email`, `age`). -/
structure User where
  id : Nat
  name : String
  email : String
  age : Nat
deriving DecidableEq, Repr

/-- The row a user record produces under `SELECT *`. -/
def userRow (u : User) : Row :=
  [Value.int u.id, Value.text u.name, Value.text u.email, Value.int u.age]

/-- The users seeded by `setup_sample_database` in 0-databaseconnection.py
(lines 86-96): four users with ages 30, 25, 35 and 28, inserted in this
order (ids assigned by `AUTOINCREMENT`). -/
def sampleUsers : List User :=
  [ { id := 1, name := "John Doe", email := "john.doe@example.com", age := 30 }
  , { id := 2, name := "Jane Smith", email := "jane.smith@example.com", age := 25 }
  , { id := 3, name := "Bob Johnson", email := "bob.johnson@example.com", age := 35 }
  , { id := 4, name := "Alice Brown", email := "alice.brown@example.com", age := 28 } ]

/-- SQLite semantics of the statement
`SELECT * FROM users WHERE age > ?` over a `users` table holding `store`:
with one bound integer parameter `p`, it produces the rows of the users
whose age exceeds `p`, in table order; the affected-row count of a read is
not meaningful (sqlite3 reports `-1`; modelled as `0`, never consulted for
a `SELECT`). -/
def usersAgeGtSem (store : List User) :
    String → Option (List Value) → ExecOutcome :=
  fun _ binding =>
    match binding with
    | some [Value.int p] =>
      { produced := (store.filter fun u => p < (u.age : Int)).map userRow
        affected := 0 }
    | _ => { produced := [], affected := 0 }

/-- The users seeded by `setup_sample_database` in 3-concurrent.py
(lines 22-35): twelve users, four of whom are older than 40. -/
def concurrentUsers : List User :=
  [ { id := 1, name := "John Doe", email := "john.doe@example.com", age := 30 }
  , { id := 2, name := "Jane Smith", email := "jane.smith@example.com", age := 25 }
  , { id := 3, name := "Bob Johnson", email := "bob.johnson@example.com", age := 35 }
  , { id := 4, name := "Alice Brown", email := "alice.brown@example.com", age := 28 }
  , { id := 5, name := "Charlie Wilson", email := "charlie.wilson@example.com", age := 22 }
  , { id := 6, name := "Diana Miller", email := "diana.miller@example.com", age := 45 }
  , { id := 7, name := "Eve Davis", email := "eve.davis@example.com", age := 26 }
  , { id := 8, name := "Frank Garcia", email := "frank.garcia@example.com", age := 33 }
  , { id := 9, name := "Grace Lee", email := "grace.lee@example.com", age := 42 }
  , { id := 10, name := "Henry Taylor", email := "henry.taylor@example.com", age := 48 }
  , { id := 11, name := "Ivy Chen", email := "ivy.chen@example.com", age := 29 }
  , { id := 12, name := "Jack Robinson", email := "jack.robinson@example.com", age := 51 } ]

/-- Simulated latency, in milliseconds, of `async_fetch_users`
(3-concurrent.py line 62: `await asyncio.sleep(0.1)`). -/
def asyncFetchUsersLatency : Nat := 100

/-- Simulated latency, in milliseconds, of `async_fetch_older_users`
(3-concurrent.py line 95: `await asyncio.sleep(0.15)`). -/
def asyncFetchOlderUsersLatency : Nat := 150

/-- Result set of `async_fetch_users` (3-concurrent.py lines 46-76):
`SELECT * FROM users` — every row of the store, in table order. -/
def asyncFetchUsersResult (store : List User) : List Row :=
  store.map userRow

/-- Result set of `async_fetch_older_users` (3-concurrent.py lines 79-109):
`SELECT * FROM users WHERE age > ?` with parameter `40`. -/
def asyncFetchOlderUsersResult (store : List User) : List Row :=
  (store.filter fun u => 40 < u.age).map userRow

/-- Modelled from the spec: the single-threaded cooperative scheduler of
suspending mode (spec section 5) is not part of this repository's sources
(it is the async runtime behind `asyncio.gather`).  Under it, the
suspension points of tasks started together by the fan-out/fan-in
primitive overlap, so the wall-clock time of gathering two sleep-bound
tasks is the maximum of their durations. -/
def gatherElapsed (d1 d2 : Nat) : Nat := max d1 d2

/-- Wall-clock time of running the same two sleep-bound tasks one after
the other: the sum of their durations. -/
def sequentialElapsed (d1 d2 : Nat) : Nat := d1 + d2

/-- A simulated user record of 2-lazy_paginate.py
(`{"id": i, "name": f"User {i}", "email": f"user{i}@example.com"}`). -/
structure SimUser where
  id : Nat
  name : String
  email : String
deriving DecidableEq, Repr

/-- The mock table of 2-lazy_paginate.py line 28: the 100 simulated users
with ids 1 through 100. -/
def allUsers : List SimUser :=
  (List.range' 1 100).map fun i =>
    { id := i
      name := "User " ++ toString i
      email := "user" ++ toString i ++ "@example.com" }

/-- Shallow embedding of `paginate_users` (2-lazy_paginate.py lines 1-41):
`start_idx = offset`, `end_idx = min(offset + page_size, len(all_users))`,
return `[]` if `start_idx >= len(all_users)`, else the Python slice
`all_users[start_idx:end_idx]`. -/
def paginate_users (page_size offset : Nat) : List SimUser :=
  let start_idx := offset
  let end_idx := min (offset + page_size) allUsers.length
  if allUsers.length ≤ start_idx then []
  else (allUsers.drop start_idx).take (end_idx - start_idx)

theorem allUsers_length : allUsers.length = 100 := by
  simp [allUsers]

/-- A nonempty page implies the offset is still inside the table and the
page size is positive (with `page_size = 0` the very first page is already
empty and the loop stops at once). -/
theorem paginate_users_ne_nil {page_size offset : Nat}
    (h : paginate_users page_size offset ≠ []) :
    offset < allUsers.length ∧ 0 < page_size := by
  unfold paginate_users at h
  by_cases hb : allUsers.length ≤ offset
  · simp [hb] at h
  · push_neg at hb
    refine ⟨hb, ?_⟩
    by_contra hps
    push_neg at hps
    have hz : page_size = 0 := Nat.le_zero.mp hps
    subst hz
    simp [Nat.min_eq_left (Nat.le_of_lt hb)] at h

/-- Shallow embedding of the `lazy_paginate` generator loop
(2-lazy_paginate.py lines 44-71) started at a given offset: fetch
`paginate_users(page_size, offset)`; if the page is empty, stop; else yield
its records and continue at `offset + page_size`.  The value is the list of
all records the generator yields, in order. -/
def lazy_paginate_from (page_size offset : Nat) : List SimUser :=
  if h : paginate_users page_size offset = [] then []
  else
    paginate_users page_size offset ++
      lazy_paginate_from page_size (offset + page_size)
termination_by allUsers.length - offset
decreasing_by
  have hb := paginate_users_ne_nil h
  omega

/-- Shallow embedding of `lazy_paginate(page_size)`: the generator starts
at `offset = 0`. -/
def lazy_paginate (page_size : Nat) : List SimUser :=
  lazy_paginate_from page_size 0

theorem lazy_paginate_from_eq_drop (ps : Nat) (hps : 0 < ps) :
    ∀ off, lazy_paginate_from ps off = allUsers.drop off := by
  have H : ∀ n off, allUsers.length - off ≤ n →
      lazy_paginate_from ps off = allUsers.drop off := by
    intro n
    induction n with
    | zero =>
      intro off hoff
      have hle : allUsers.length ≤ off := by omega
      have hempty : paginate_users ps off = [] := by
        unfold paginate_users
        simp [hle]
      rw [lazy_paginate_from]
      simp [hempty, List.drop_eq_nil_of_le hle]
    | succ n ih =>
      intro off hoff
      rw [lazy_paginate_from]
      by_cases hemp : paginate_users ps off = []
      · have hle : allUsers.length ≤ off := by
          by_contra hlt
          push_neg at hlt
          have : paginate_users ps off ≠ [] := by
            unfold paginate_users
            simp only [Nat.not_le.mpr hlt, if_false]
            intro hcon
            have h1 : ((allUsers.drop off).take
                (min (off + ps) allUsers.length - off)).length = 0 := by
              rw [hcon]; rfl
            rw [List.length_take, List.length_drop] at h1
            omega
          exact this hemp
        simp [hemp, List.drop_eq_nil_of_le hle]
      · have hlt : off < allUsers.length := (paginate_users_ne_nil hemp).1
        have hrec : lazy_paginate_from ps (off + ps) = allUsers.drop (off + ps) :=
          ih (off + ps) (by omega)
        have hpage : paginate_users ps off =
            (allUsers.drop off).take (min (off + ps) allUsers.length - off) := by
          unfold paginate_users
          simp [Nat.not_le.mpr hlt]
        rw [dif_neg hemp, hrec, hpage]
        by_cases hin : off + ps ≤ allUsers.length
        · have hm : min (off + ps) allUsers.length - off = ps := by omega
          rw [hm]
          have hd : allUsers.drop (off + ps) = (allUsers.drop off).drop ps := by
            rw [List.drop_drop]
          rw [hd, List.take_append_drop]
        · push_neg at hin
          have hm : min (off + ps) allUsers.length - off =
              allUsers.length - off := by omega
          rw [hm]
          have hlen : (allUsers.drop off).length = allUsers.length - off := by
            rw [List.length_drop]
          have ht : (allUsers.drop off).take (allUsers.length - off) =
              allUsers.drop off := by
            rw [← hlen]
            exact List.take_length _
          have hnil : allUsers.drop (off + ps) = [] :=
            List.drop_eq_nil_of_le (by omega)
          rw [ht, hnil, List.append_nil]
  intro off
  exact H (allUsers.length - off) off le_rfl

/-- C1 (amended): for every session whose acquisition succeeds and whose
commit/rollback step does not itself fault, `DatabaseConnection` closes the
handle exactly once on every exit path; `ExecuteQuery` closes it exactly
once when statement execution inside `__enter__` succeeds (normal return or
scope-body fault), but when statement execution raises inside `__enter__`,
`__exit__` never runs and the already-created handle is closed zero
times. -/
theorem c1_close_exactly_once (env : Env) (q : String)
    (p : Option (List Value))
    (sem : String → Option (List Value) → ExecOutcome)
    (hc : env.connectOk = true) (hcm : env.commitOk = true)
    (hrb : env.rollbackOk = true) :
    countEv Event.closeConn (DatabaseConnection.run env).1 = 1 ∧
    countEv Event.closeConn (ExecuteQuery.run env q p sem).events =
      (if env.queryOk then 1 else 0) := by
  obtain ⟨c, qk, bf, cm, rb⟩ := env
  simp only at hc hcm hrb
  subst hc; subst hcm; subst hrb
  cases qk <;> rcases bf with _ | ⟨k, m⟩ <;>
    exact ⟨rfl, rfl⟩

/-- C1 counterexample: a session in which acquisition succeeds (the
`connect` event is in the trace) but statement execution inside
`ExecuteQuery.__enter__` raises.  The `with` protocol never invokes
`__exit__`, so the handle is closed zero times — not exactly once — and the
`QueryError` propagates. -/
theorem c1_counterexample :
    Event.connect ∈ (ExecuteQuery.run ⟨true, false, none, true, true⟩
        "SELECT * FROM users" none trivialSem).events ∧
    countEv Event.closeConn (ExecuteQuery.run ⟨true, false, none, true, true⟩
        "SELECT * FROM users" none trivialSem).events = 0 ∧
    (ExecuteQuery.run ⟨true, false, none, true, true⟩
        "SELECT * FROM users" none trivialSem).fault = some Fault.queryErr := by
  decide

/-- C1 witness: concrete successful session for `c1_close_exactly_once`. -/
theorem c1_close_exactly_once_witness :
    countEv Event.closeConn
      (DatabaseConnection.run ⟨true, true, none, true, true⟩).1 = 1 ∧
    countEv Event.closeConn (ExecuteQuery.run ⟨true, true, none, true, true⟩
        "SELECT 1" none trivialSem).events =
      (if (Env.mk true true none true true).queryOk then 1 else 0) :=
  c1_close_exactly_once ⟨true, true, none, true, true⟩ "SELECT 1" none
    trivialSem rfl rfl rfl

/-- C2: for every session whose scope body completes without raising (and
whose commit is accepted by the store), both context managers commit
exactly once, close exactly once, commit strictly before close, perform no
rollback, and propagate no fault. -/
theorem c2_commit_then_close_on_success (env : Env) (q : String)
    (p : Option (List Value))
    (sem : String → Option (List Value) → ExecOutcome)
    (hc : env.connectOk = true) (hq : env.queryOk = true)
    (hb : env.bodyFault = none) (hcm : env.commitOk = true) :
    (countEv Event.commit (DatabaseConnection.run env).1 = 1 ∧
     countEv Event.closeConn (DatabaseConnection.run env).1 = 1 ∧
     countEv Event.rollback (DatabaseConnection.run env).1 = 0 ∧
     List.indexOf Event.commit (DatabaseConnection.run env).1 <
       List.indexOf Event.closeConn (DatabaseConnection.run env).1 ∧
     (DatabaseConnection.run env).2 = none) ∧
    (countEv Event.commit (ExecuteQuery.run env q p sem).events = 1 ∧
     countEv Event.closeConn (ExecuteQuery.run env q p sem).events = 1 ∧
     countEv Event.rollback (ExecuteQuery.run env q p sem).events = 0 ∧
     List.indexOf Event.commit (ExecuteQuery.run env q p sem).events <
       List.indexOf Event.closeConn (ExecuteQuery.run env q p sem).events ∧
     (ExecuteQuery.run env q p sem).fault = none) := by
  obtain ⟨c, qk, bf, cm, rb⟩ := env
  simp only at hc hq hb hcm
  subst hc; subst hq; subst hb; subst hcm
  exact ⟨⟨rfl, rfl, rfl, Nat.lt_of_sub_eq_succ rfl, rfl⟩,
    ⟨rfl, rfl, rfl, Nat.lt_of_sub_eq_succ rfl, rfl⟩⟩

/-- C2 witness: concrete successful session for
`c2_commit_then_close_on_success`. -/
theorem c2_commit_then_close_on_success_witness :
    (countEv Event.commit
       (DatabaseConnection.run ⟨true, true, none, true, true⟩).1 = 1 ∧
     countEv Event.closeConn
       (DatabaseConnection.run ⟨true, true, none, true, true⟩).1 = 1 ∧
     countEv Event.rollback
       (DatabaseConnection.run ⟨true, true, none, true, true⟩).1 = 0 ∧
     List.indexOf Event.commit
         (DatabaseConnection.run ⟨true, true, none, true, true⟩).1 <
       List.indexOf Event.closeConn
         (DatabaseConnection.run ⟨true, true, none, true, true⟩).1 ∧
     (DatabaseConnection.run ⟨true, true, none, true, true⟩).2 = none) ∧
    (countEv Event.commit (ExecuteQuery.run ⟨true, true, none, true, true⟩
        "SELECT 1" none trivialSem).events = 1 ∧
     countEv Event.closeConn (ExecuteQuery.run ⟨true, true, none, true, true⟩
        "SELECT 1" none trivialSem).events = 1 ∧
     countEv Event.rollback (ExecuteQuery.run ⟨true, true, none, true, true⟩
        "SELECT 1" none trivialSem).events = 0 ∧
     List.indexOf Event.commit
         (ExecuteQuery.run ⟨true, true, none, true, true⟩
           "SELECT 1" none trivialSem).events <
       List.indexOf Event.closeConn
         (ExecuteQuery.run ⟨true, true, none, true, true⟩
           "SELECT 1" none trivialSem).events ∧
     (ExecuteQuery.run ⟨true, true, none, true, true⟩
        "SELECT 1" none trivialSem).fault = none) :=
  c2_commit_then_close_on_success ⟨true, true, none, true, true⟩
    "SELECT 1" none trivialSem rfl rfl rfl rfl

/-- C3: for every session whose scope body raises a fault (and whose
rollback is accepted by the store), both context managers roll back exactly
once, close exactly once, roll back strictly before close, perform no
commit, and re-raise the original fault unchanged — the very same kind and
message, never swallowed or replaced (`__exit__` returns `False`). -/
theorem c3_rollback_then_close_on_fault (env : Env) (q : String)
    (p : Option (List Value))
    (sem : String → Option (List Value) → ExecOutcome) (k m : String)
    (hc : env.connectOk = true) (hq : env.queryOk = true)
    (hb : env.bodyFault = some (k, m)) (hrb : env.rollbackOk = true) :
    (countEv Event.rollback (DatabaseConnection.run env).1 = 1 ∧
     countEv Event.closeConn (DatabaseConnection.run env).1 = 1 ∧
     countEv Event.commit (DatabaseConnection.run env).1 = 0 ∧
     List.indexOf Event.rollback (DatabaseConnection.run env).1 <
       List.indexOf Event.closeConn (DatabaseConnection.run env).1 ∧
     (DatabaseConnection.run env).2 = some (Fault.bodyErr k m)) ∧
    (countEv Event.rollback (ExecuteQuery.run env q p sem).events = 1 ∧
     countEv Event.closeConn (ExecuteQuery.run env q p sem).events = 1 ∧
     countEv Event.commit (ExecuteQuery.run env q p sem).events = 0 ∧
     List.indexOf Event.rollback (ExecuteQuery.run env q p sem).events <
       List.indexOf Event.closeConn (ExecuteQuery.run env q p sem).events ∧
     (ExecuteQuery.run env q p sem).fault = some (Fault.bodyErr k m)) := by
  obtain ⟨c, qk, bf, cm, rb⟩ := env
  simp only at hc hq hb hrb
  subst hc; subst hq; subst hb; subst hrb
  exact ⟨⟨rfl, rfl, rfl, Nat.lt_of_sub_eq_succ rfl, rfl⟩,
    ⟨rfl, rfl, rfl, Nat.lt_of_sub_eq_succ rfl, rfl⟩⟩

/-- C3 witness: concrete faulting scope body (kind `ValueError`, message
`boom`) for `c3_rollback_then_close_on_fault`. -/
theorem c3_rollback_then_close_on_fault_witness :
    (countEv Event.rollback
       (DatabaseConnection.run
         ⟨true, true, some ("ValueError", "boom"), true, true⟩).1 = 1 ∧
     countEv Event.closeConn
       (DatabaseConnection.run
         ⟨true, true, some ("ValueError", "boom"), true, true⟩).1 = 1 ∧
     countEv Event.commit
       (DatabaseConnection.run
         ⟨true, true, some ("ValueError", "boom"), true, true⟩).1 = 0 ∧
     List.indexOf Event.rollback
         (DatabaseConnection.run
           ⟨true, true, some ("ValueError", "boom"), true, true⟩).1 <
       List.indexOf Event.closeConn
         (DatabaseConnection.run
           ⟨true, true, some ("ValueError", "boom"), true, true⟩).1 ∧
     (DatabaseConnection.run
        ⟨true, true, some ("ValueError", "boom"), true, true⟩).2 =
       some (Fault.bodyErr "ValueError" "boom")) ∧
    (countEv Event.rollback
       (ExecuteQuery.run ⟨true, true, some ("ValueError", "boom"), true, true⟩
         "SELECT 1" none trivialSem).events = 1 ∧
     countEv Event.closeConn
       (ExecuteQuery.run ⟨true, true, some ("ValueError", "boom"), true, true⟩
         "SELECT 1" none trivialSem).events = 1 ∧
     countEv Event.commit
       (ExecuteQuery.run ⟨true, true, some ("ValueError", "boom"), true, true⟩
         "SELECT 1" none trivialSem).events = 0 ∧
     List.indexOf Event.rollback
         (ExecuteQuery.run
           ⟨true, true, some ("ValueError", "boom"), true, true⟩
           "SELECT 1" none trivialSem).events <
       List.indexOf Event.closeConn
         (ExecuteQuery.run
           ⟨true, true, some ("ValueError", "boom"), true, true⟩
           "SELECT 1" none trivialSem).events ∧
     (ExecuteQuery.run ⟨true, true, some ("ValueError", "boom"), true, true⟩
        "SELECT 1" none trivialSem).fault =
       some (Fault.bodyErr "ValueError" "boom")) :=
  c3_rollback_then_close_on_fault
    ⟨true, true, some ("ValueError", "boom"), true, true⟩
    "SELECT 1" none trivialSem "ValueError" "boom" rfl rfl rfl rfl

/-- C4 counterexample: a session whose scope body succeeds but whose commit
step raises.  `__exit__` has no try/finally, so `connection.close()` is
never reached: the close count is zero (the handle is leaked) and the
`CommitError` propagates — refuting the claim that the close step runs even
when commit faults.  The rollback side fails the same way. -/
theorem c4_counterexample :
    countEv Event.closeConn
      (DatabaseConnection.run ⟨true, true, none, false, true⟩).1 = 0 ∧
    (DatabaseConnection.run ⟨true, true, none, false, true⟩).2 =
      some Fault.commitErr ∧
    countEv Event.closeConn
      (ExecuteQuery.run ⟨true, true, some ("ValueError", "boom"), true, false⟩
        "SELECT 1" none trivialSem).events = 0 ∧
    (ExecuteQuery.run ⟨true, true, some ("ValueError", "boom"), true, false⟩
       "SELECT 1" none trivialSem).fault = some Fault.rollbackErr := by
  decide

/-- C4 (amended): for every session in which acquisition (and, for
`ExecuteQuery`, statement execution) succeeds, a fault raised by the commit
step (on the success path) or by the rollback step (on the fault path)
causes the handle-close step to be skipped entirely: the handle is closed
zero times — leaked — and the `CommitError` / `RollbackError` propagates in
place of the original outcome. -/
theorem c4_close_skipped_on_release_fault (env : Env) (q : String)
    (p : Option (List Value))
    (sem : String → Option (List Value) → ExecOutcome)
    (hc : env.connectOk = true) (hq : env.queryOk = true) :
    (env.bodyFault = none → env.commitOk = false →
      countEv Event.closeConn (DatabaseConnection.run env).1 = 0 ∧
      (DatabaseConnection.run env).2 = some Fault.commitErr ∧
      countEv Event.closeConn (ExecuteQuery.run env q p sem).events = 0 ∧
      (ExecuteQuery.run env q p sem).fault = some Fault.commitErr) ∧
    (∀ k m, env.bodyFault = some (k, m) → env.rollbackOk = false →
      countEv Event.closeConn (DatabaseConnection.run env).1 = 0 ∧
      (DatabaseConnection.run env).2 = some Fault.rollbackErr ∧
      countEv Event.closeConn (ExecuteQuery.run env q p sem).events = 0 ∧
      (ExecuteQuery.run env q p sem).fault = some Fault.rollbackErr) := by
  obtain ⟨c, qk, bf, cm, rb⟩ := env
  simp only at hc hq
  subst hc; subst hq
  constructor
  · intro hb hcm
    simp only at hb hcm
    subst hb; subst hcm
    exact ⟨rfl, rfl, rfl, rfl⟩
  · intro k m hb hrb
    simp only at hb hrb
    subst hb; subst hrb
    exact ⟨rfl, rfl, rfl, rfl⟩

/-- C4 witness: concrete commit-fault session for
`c4_close_skipped_on_release_fault`. -/
theorem c4_close_skipped_on_release_fault_witness :
    ((Env.mk true true none false true).bodyFault = none →
      (Env.mk true true none false true).commitOk = false →
      countEv Event.closeConn
        (DatabaseConnection.run ⟨true, true, none, false, true⟩).1 = 0 ∧
      (DatabaseConnection.run ⟨true, true, none, false, true⟩).2 =
        some Fault.commitErr ∧
      countEv Event.closeConn
        (ExecuteQuery.run ⟨true, true, none, false, true⟩
          "SELECT 1" none trivialSem).events = 0 ∧
      (ExecuteQuery.run ⟨true, true, none, false, true⟩
         "SELECT 1" none trivialSem).fault = some Fault.commitErr) ∧
    (∀ k m, (Env.mk true true none false true).bodyFault = some (k, m) →
      (Env.mk true true none false true).rollbackOk = false →
      countEv Event.closeConn
        (DatabaseConnection.run ⟨true, true, none, false, true⟩).1 = 0 ∧
      (DatabaseConnection.run ⟨true, true, none, false, true⟩).2 =
        some Fault.rollbackErr ∧
      countEv Event.closeConn
        (ExecuteQuery.run ⟨true, true, none, false, true⟩
          "SELECT 1" none trivialSem).events = 0 ∧
      (ExecuteQuery.run ⟨true, true, none, false, true⟩
         "SELECT 1" none trivialSem).fault = some Fault.rollbackErr) :=
  c4_close_skipped_on_release_fault ⟨true, true, none, false, true⟩
    "SELECT 1" none trivialSem rfl rfl

/-- C5: for every session whose acquisition fails, no commit, rollback or
close step executes, the scope body is never entered, the yielded value is
never produced, and the surfaced failure is the `ConnectionError` kind —
distinguishable from `QueryError` and `CommitError`. -/
theorem c5_acquisition_failure (env : Env) (q : String)
    (p : Option (List Value))
    (sem : String → Option (List Value) → ExecOutcome)
    (hc : env.connectOk = false) :
    ((DatabaseConnection.run env).1 = [] ∧
     (DatabaseConnection.run env).2 = some Fault.connErr ∧
     countEv Event.commit (DatabaseConnection.run env).1 = 0 ∧
     countEv Event.rollback (DatabaseConnection.run env).1 = 0 ∧
     countEv Event.closeConn (DatabaseConnection.run env).1 = 0 ∧
     countEv Event.bodyRun (DatabaseConnection.run env).1 = 0) ∧
    ((ExecuteQuery.run env q p sem).events = [] ∧
     (ExecuteQuery.run env q p sem).fault = some Fault.connErr ∧
     countEv Event.commit (ExecuteQuery.run env q p sem).events = 0 ∧
     countEv Event.rollback (ExecuteQuery.run env q p sem).events = 0 ∧
     countEv Event.closeConn (ExecuteQuery.run env q p sem).events = 0 ∧
     countEv Event.bodyRun (ExecuteQuery.run env q p sem).events = 0 ∧
     (ExecuteQuery.run env q p sem).yielded = none) ∧
    (Fault.connErr ≠ Fault.queryErr ∧ Fault.connErr ≠ Fault.commitErr) := by
  obtain ⟨c, qk, bf, cm, rb⟩ := env
  simp only at hc
  subst hc
  exact ⟨⟨rfl, rfl, rfl, rfl, rfl, rfl⟩,
    ⟨rfl, rfl, rfl, rfl, rfl, rfl, rfl⟩,
    by decide, by decide⟩

/-- C5 witness: concrete failed acquisition for `c5_acquisition_failure`. -/
theorem c5_acquisition_failure_witness :
    ((DatabaseConnection.run ⟨false, true, none, true, true⟩).1 = [] ∧
     (DatabaseConnection.run ⟨false, true, none, true, true⟩).2 =
       some Fault.connErr ∧
     countEv Event.commit
       (DatabaseConnection.run ⟨false, true, none, true, true⟩).1 = 0 ∧
     countEv Event.rollback
       (DatabaseConnection.run ⟨false, true, none, true, true⟩).1 = 0 ∧
     countEv Event.closeConn
       (DatabaseConnection.run ⟨false, true, none, true, true⟩).1 = 0 ∧
     countEv Event.bodyRun
       (DatabaseConnection.run ⟨false, true, none, true, true⟩).1 = 0) ∧
    ((ExecuteQuery.run ⟨false, true, none, true, true⟩
        "SELECT 1" none trivialSem).events = [] ∧
     (ExecuteQuery.run ⟨false, true, none, true, true⟩
        "SELECT 1" none trivialSem).fault = some Fault.connErr ∧
     countEv Event.commit (ExecuteQuery.run ⟨false, true, none, true, true⟩
        "SELECT 1" none trivialSem).events = 0 ∧
     countEv Event.rollback (ExecuteQuery.run ⟨false, true, none, true, true⟩
        "SELECT 1" none trivialSem).events = 0 ∧
     countEv Event.closeConn (ExecuteQuery.run ⟨false, true, none, true, true⟩
        "SELECT 1" none trivialSem).events = 0 ∧
     countEv Event.bodyRun (ExecuteQuery.run ⟨false, true, none, true, true⟩
        "SELECT 1" none trivialSem).events = 0 ∧
     (ExecuteQuery.run ⟨false, true, none, true, true⟩
        "SELECT 1" none trivialSem).yielded = none) ∧
    (Fault.connErr ≠ Fault.queryErr ∧ Fault.connErr ≠ Fault.commitErr) :=
  c5_acquisition_failure ⟨false, true, none, true, true⟩
    "SELECT 1" none trivialSem rfl

/-- C6: for every session given a statement, if the statement's verb is
`SELECT`-class (after `strip().upper()`), the yielded value is the full set
of rows the statement produced, materialized eagerly as a list; otherwise
the yielded value is the affected-row count. -/
theorem c6_select_rows_else_rowcount (env : Env) (q : String)
    (p : Option (List Value))
    (sem : String → Option (List Value) → ExecOutcome)
    (hc : env.connectOk = true) (hq : env.queryOk = true) :
    (isSelectQuery q = true →
      (ExecuteQuery.run env q p sem).yielded =
        some (QueryResult.rows (sem q (bindCall (pyOrEmpty p))).produced)) ∧
    (isSelectQuery q = false →
      (ExecuteQuery.run env q p sem).yielded =
        some (QueryResult.count (sem q (bindCall (pyOrEmpty p))).affected)) := by
  obtain ⟨c, qk, bf, cm, rb⟩ := env
  simp only at hc hq
  subst hc; subst hq
  constructor
  · intro hsel
    simp [ExecuteQuery.run, fetchResults, hsel]
  · intro hsel
    simp [ExecuteQuery.run, fetchResults, hsel]

/-- C6 witness: a concrete read statement and a concrete write statement
for `c6_select_rows_else_rowcount`. -/
theorem c6_select_rows_else_rowcount_witness :
    ((isSelectQuery "SELECT * FROM users" = true →
      (ExecuteQuery.run ⟨true, true, none, true, true⟩ "SELECT * FROM users"
          none trivialSem).yielded =
        some (QueryResult.rows ((trivialSem "SELECT * FROM users"
          (bindCall (pyOrEmpty none))).produced))) ∧
     (isSelectQuery "SELECT * FROM users" = false →
      (ExecuteQuery.run ⟨true, true, none, true, true⟩ "SELECT * FROM users"
          none trivialSem).yielded =
        some (QueryResult.count ((trivialSem "SELECT * FROM users"
          (bindCall (pyOrEmpty none))).affected)))) ∧
    ((isSelectQuery "DELETE FROM users" = true →
      (ExecuteQuery.run ⟨true, true, none, true, true⟩ "DELETE FROM users"
          none trivialSem).yielded =
        some (QueryResult.rows ((trivialSem "DELETE FROM users"
          (bindCall (pyOrEmpty none))).produced))) ∧
     (isSelectQuery "DELETE FROM users" = false →
      (ExecuteQuery.run ⟨true, true, none, true, true⟩ "DELETE FROM users"
          none trivialSem).yielded =
        some (QueryResult.count ((trivialSem "DELETE FROM users"
          (bindCall (pyOrEmpty none))).affected)))) :=
  ⟨c6_select_rows_else_rowcount ⟨true, true, none, true, true⟩
      "SELECT * FROM users" none trivialSem rfl rfl,
   c6_select_rows_else_rowcount ⟨true, true, none, true, true⟩
      "DELETE FROM users" none trivialSem rfl rfl⟩

/-- C7 counterexample: the session executing
`SELECT * FROM users WHERE age > ?` with parameters `(25,)` against the
store seeded with the four sample users of ages 30, 25, 35 and 28 yields
3 rows — ages 30, 35 and 28 — not 2: the seeded age 28 also exceeds 25, so
Alice Brown's row is produced as well, refuting the claimed 2-row result
set. -/
theorem c7_counterexample :
    (ExecuteQuery.run ⟨true, true, none, true, true⟩
        "SELECT * FROM users WHERE age > ?" (some [Value.int 25])
        (usersAgeGtSem sampleUsers)).yielded =
      some (QueryResult.rows
        ((sampleUsers.filter fun u => (25 : Int) < (u.age : Int)).map
          userRow)) ∧
    (sampleUsers.filter fun u => (25 : Int) < (u.age : Int)).map User.age =
      [30, 35, 28] ∧
    ((sampleUsers.filter fun u => (25 : Int) < (u.age : Int)).map
        userRow).length = 3 ∧
    ¬ ((sampleUsers.filter fun u => (25 : Int) < (u.age : Int)).map
        userRow).length = 2 := by
  decide

/-- C7 (amended): a session executing `SELECT * FROM users WHERE age > ?`
with parameters `(25,)` against the store seeded with the four sample users
of ages 30, 25, 35 and 28 yields exactly 3 rows — those of the users with
ages 30, 35 and 28 (John Doe, Bob Johnson and Alice Brown), in table
order. -/
theorem c7_sample_query_rows :
    (ExecuteQuery.run ⟨true, true, none, true, true⟩
        "SELECT * FROM users WHERE age > ?" (some [Value.int 25])
        (usersAgeGtSem sampleUsers)).yielded =
      some (QueryResult.rows
        ((sampleUsers.filter fun u => (25 : Int) < (u.age : Int)).map
          userRow)) ∧
    ((sampleUsers.filter fun u => (25 : Int) < (u.age : Int)).map
        userRow).length = 3 ∧
    (sampleUsers.filter fun u => (25 : Int) < (u.age : Int)).map User.age =
      [30, 35, 28] ∧
    (sampleUsers.filter fun u => (25 : Int) < (u.age : Int)).map User.name =
      ["John Doe", "Bob Johnson", "Alice Brown"] := by
  decide

/-- C8: the two suspending-mode sessions of 3-concurrent.py against the
same seeded store — `async_fetch_users` with 100 ms simulated latency and
`async_fetch_older_users` with 150 ms — started together via
`asyncio.gather`, each produce their own correct result set (all 12 rows,
and exactly the 4 rows with ages above 40), and under the cooperative
scheduler the gathered wall-clock time (150 ms, the maximum) is strictly
less than the 250 ms sum of the two latencies. -/
theorem c8_concurrent_fetch :
    (asyncFetchUsersResult concurrentUsers).length = 12 ∧
    asyncFetchUsersResult concurrentUsers = concurrentUsers.map userRow ∧
    (asyncFetchOlderUsersResult concurrentUsers).length = 4 ∧
    asyncFetchOlderUsersResult concurrentUsers =
      (concurrentUsers.filter fun u => 40 < u.age).map userRow ∧
    (concurrentUsers.filter fun u => 40 < u.age).map User.age =
      [45, 42, 48, 51] ∧
    gatherElapsed asyncFetchUsersLatency asyncFetchOlderUsersLatency = 150 ∧
    sequentialElapsed asyncFetchUsersLatency asyncFetchOlderUsersLatency =
      250 ∧
    gatherElapsed asyncFetchUsersLatency asyncFetchOlderUsersLatency <
      sequentialElapsed asyncFetchUsersLatency asyncFetchOlderUsersLatency := by
  refine ⟨rfl, rfl, rfl, rfl, by decide, rfl, rfl, by decide⟩

/-- C9: constructing `ExecuteQuery` with `parameters` omitted (the Python
default `None`), with `parameters=None`, or with an empty sequence yields
identical stored parameters (the empty tuple), an execute call with no
parameter binding, and an identical session outcome (same trace, same
fault, same yielded results) for every environment, statement and store
semantics. -/
theorem c9_falsy_parameters_equivalent (env : Env) (q : String)
    (sem : String → Option (List Value) → ExecOutcome) :
    pyOrEmpty none = [] ∧
    pyOrEmpty (some []) = [] ∧
    bindCall (pyOrEmpty none) = none ∧
    bindCall (pyOrEmpty (some [])) = none ∧
    ExecuteQuery.run env q none sem = ExecuteQuery.run env q (some []) sem :=
  ⟨rfl, rfl, rfl, rfl, rfl⟩

/-- C10: for every `page_size ≥ 1` — whether or not it divides 100 —
`lazy_paginate` yields exactly the 100 simulated user records, equal to the
full mock table: ids 1 through 100, each exactly once, in ascending order,
and the generator terminates (the embedding is a total function whose value
is the finite list of everything yielded). -/
theorem c10_lazy_paginate_yields_all (page_size : Nat)
    (hps : 1 ≤ page_size) :
    lazy_paginate page_size = allUsers ∧
    (lazy_paginate page_size).map SimUser.id = List.range' 1 100 ∧
    (lazy_paginate page_size).length = 100 := by
  have hall : lazy_paginate page_size = allUsers := by
    rw [lazy_paginate, lazy_paginate_from_eq_drop page_size hps 0,
      List.drop_zero]
  refine ⟨hall, ?_, ?_⟩
  · have hcomp : (SimUser.id ∘ fun i : Nat =>
        ({ id := i, name := "User " ++ toString i,
           email := "user" ++ toString i ++ "@example.com" } : SimUser)) =
        fun i => i := rfl
    rw [hall, allUsers, List.map_map, hcomp]
    exact List.map_id' _
  · rw [hall, allUsers_length]

/-- C10 witness: `page_size = 3`, which does not divide 100, for
`c10_lazy_paginate_yields_all`. -/
theorem c10_lazy_paginate_yields_all_witness :
    lazy_paginate 3 = allUsers ∧
    (lazy_paginate 3).map SimUser.id = List.range' 1 100 ∧
    (lazy_paginate 3).length = 100 :=
  c10_lazy_paginate_yields_all 3 (by decide)
